import Mathlib

/-!
Shallow embedding of the MovieVerse local-persistence and remote-sync layer.

The embedding covers, faithfully to the TypeScript sources:

* `MovieService` — the TMDB client (`src/services/MovieService.ts`, with the
  account endpoints of the second variant): the generic `fetchFromAPI` wrapper
  with its catch-all mock-data fallback, `getMockData`, and the image-URL
  helpers.
* `SessionStore` — the in-memory (session `Map`) variant of `StorageService`:
  favorites / watchlist / watched sets keyed by movie id, the ratings map,
  and `clearAllData`.
* `DurableStore` — the AsyncStorage-backed variant of `StorageService`:
  each storage key holds a missing / malformed / deserialized value, mutating
  operations additionally report the storage writes and the fire-and-forget
  remote mirror calls they issue, and `syncWithTMDB` performs the one-shot
  startup reconciliation.

JavaScript `Map`s are modelled as insertion-ordered association lists
(`mapHas`, `mapGet`, `mapSet`, `mapDelete` mirror `has` / `get` / `set` /
`delete`).  JavaScript numbers used for ratings are modelled as rationals.
Asynchronous functions whose `try`/`catch` blocks make them total are
modelled as total Lean functions.
-/

namespace Movieverse

/-- A TMDB movie record.  The metadata fields beyond the identifier and the
title (poster path, vote average, release date, ...) play no role in any
storage-layer operation, which only ever inspects `id`; they are abstracted
away. -/
structure Movie where
  id : Nat
  title : String
deriving DecidableEq, Repr

/-- `m.has(k)` on a JavaScript `Map` modelled as an association list. -/
def mapHas {α : Type} (k : Nat) (m : List (Nat × α)) : Bool :=
  m.any (fun p => p.1 == k)

/-- `m.get(k)` on a JavaScript `Map`. -/
def mapGet {α : Type} (k : Nat) (m : List (Nat × α)) : Option α :=
  (m.find? (fun p => p.1 == k)).map (fun p => p.2)

/-- `m.set(k, v)` on a JavaScript `Map`: update in place when the key exists,
append at the end otherwise (JS `Map`s preserve insertion order). -/
def mapSet {α : Type} (k : Nat) (v : α) (m : List (Nat × α)) : List (Nat × α) :=
  if mapHas k m then m.map (fun p => if p.1 == k then (k, v) else p)
  else m ++ [(k, v)]

/-- `m.delete(k)` on a JavaScript `Map`. -/
def mapDelete {α : Type} (k : Nat) (m : List (Nat × α)) : List (Nat × α) :=
  m.filter (fun p => p.1 != k)

namespace MovieService

/-- A genre entry as returned by the genre-list endpoint. -/
structure Genre where
  id : Nat
  name : String
deriving DecidableEq, Repr

/-- A cast entry of the mock credits payload. -/
structure CastMember where
  id : Nat
  name : String
  character : String
  profilePath : String
  order : Nat
deriving DecidableEq, Repr

/-- A crew entry of the mock credits payload. -/
structure CrewMember where
  id : Nat
  name : String
  job : String
  department : String
  profilePath : String
deriving DecidableEq, Repr

/-- The parsed JSON body a `fetchFromAPI` call resolves with: a paginated
result page, a genre list, a credits record, or the bare `{results: []}`
default. -/
inductive Payload where
  | paged (page : Nat) (results : List Movie) (totalPages : Nat) (totalResults : Nat)
  | genreList (genres : List Genre)
  | credits (id : Nat) (cast : List CastMember) (crew : List CrewMember)
  | plainResults (results : List Movie)
deriving DecidableEq, Repr

/-- Substring test on character lists, modelling JavaScript
`String.prototype.includes`. -/
def listIncludes (pat : List Char) : List Char → Bool
  | [] => pat.isEmpty
  | c :: rest => List.isPrefixOf pat (c :: rest) || listIncludes pat rest

/-- `endpoint.includes(pat)`. -/
def strIncludes (s pat : String) : Bool :=
  listIncludes pat.data s.data

/-- The hard-coded mock movie list of `src/services/MovieService.ts`
(identifier and title; the remaining metadata is abstracted, see `Movie`). -/
def mockMovies : List Movie :=
  [⟨278, "The Shawshank Redemption"⟩,
   ⟨238, "The Godfather"⟩,
   ⟨155, "The Dark Knight"⟩,
   ⟨680, "Pulp Fiction"⟩,
   ⟨13, "Forrest Gump"⟩,
   ⟨27205, "Inception"⟩]

/-- `MovieService.getMockData`: endpoint-shape-directed mock data returned
whenever a request fails. -/
def getMockData (endpoint : String) : Payload :=
  if strIncludes endpoint "/movie/popular" ||
     strIncludes endpoint "/trending/movie" ||
     strIncludes endpoint "/movie/top_rated" ||
     strIncludes endpoint "/movie/now_playing" ||
     strIncludes endpoint "/movie/upcoming" then
    .paged 1 mockMovies 1 mockMovies.length
  else if strIncludes endpoint "/search/movie" then
    .paged 1 (mockMovies.take 3) 1 3
  else if strIncludes endpoint "/genre/movie/list" then
    .genreList [⟨28, "Action"⟩, ⟨35, "Comedy"⟩, ⟨18, "Drama"⟩,
                ⟨27, "Horror"⟩, ⟨10749, "Romance"⟩, ⟨878, "Science Fiction"⟩]
  else if strIncludes endpoint "/movie/" && strIncludes endpoint "/credits" then
    .credits 1
      [⟨1, "Tim Robbins", "Andy Dufresne", "/hsCu1JUzQCqsZCHY8x4sBJTgFz8.jpg", 0⟩,
       ⟨2, "Morgan Freeman", "Ellis Boyd Red Redding", "/905k0RFzH0Kd6TNXjcTpfamsE4E.jpg", 1⟩]
      [⟨3, "Frank Darabont", "Director", "Directing", "/7LqmE3p1XTwCdNCOmBxovq210Qk.jpg"⟩]
  else
    .plainResults []

/-- What the environment does with one request: the network rejects, an HTTP
response arrives with a given status and parsed body, or the body fails to
parse as JSON. -/
inductive FetchOutcome where
  | networkFailure
  | httpResponse (status : Nat) (body : Payload)
  | jsonFailure
deriving DecidableEq, Repr

/-- `response.ok`: the status code lies in the 2xx range. -/
def respOk (status : Nat) : Bool :=
  200 ≤ status && status < 300

/-- `MovieService.fetchFromAPI`.  The whole body sits inside a `try`/`catch`
whose handler returns `getMockData(endpoint)`, so the function is total and
never rejects: a missing bearer token, a network failure, a non-2xx status
(the code throws on `!response.ok`) and a JSON-parse failure all land in the
catch and are replaced by mock data. -/
def fetchFromAPI (tokenConfigured : Bool) (outcome : FetchOutcome)
    (endpoint : String) : Payload :=
  if !tokenConfigured then getMockData endpoint
  else
    match outcome with
    | .networkFailure => getMockData endpoint
    | .jsonFailure => getMockData endpoint
    | .httpResponse status body =>
      if !(respOk status) then getMockData endpoint else body

/-- The fixed enumerated set of image size tokens accepted by
`MovieService.getImageUrl`. -/
inductive ImageSize where
  | w300
  | w500
  | w780
  | original
deriving DecidableEq, Repr

/-- The string form of an image size token. -/
def sizeToken : ImageSize → String
  | .w300 => "w300"
  | .w500 => "w500"
  | .w780 => "w780"
  | .original => "original"

/-- `Config.TMDB_IMAGE_BASE_URL` (from the app configuration constants). -/
def TMDB_IMAGE_BASE_URL : String := "https://image.tmdb.org/t/p"

/-- The fixed placeholder URL returned for an absent image path. -/
def PLACEHOLDER_IMAGE_URL : String :=
  "https://via.placeholder.com/500x750/1A1A2E/9CA3AF?text=No+Image"

/-- `MovieService.getImageUrl`.  The source guard is `if (!path)`, which is
taken both for `null` and for the empty string (both are falsy in
JavaScript). -/
def getImageUrl (path : Option String) (size : ImageSize) : String :=
  match path with
  | none => PLACEHOLDER_IMAGE_URL
  | some p =>
    if p = "" then PLACEHOLDER_IMAGE_URL
    else TMDB_IMAGE_BASE_URL ++ "/" ++ sizeToken size ++ p

end MovieService

namespace SessionStore

/-- A movie as returned by the session-storage `getFavorites` /
`getWatchlist` / `getWatched`: the stored movie spread together with the
derived interaction flags. -/
structure AnnotatedMovie where
  movie : Movie
  isFavorite : Bool
  isInWatchlist : Bool
  isWatched : Bool
deriving DecidableEq, Repr

/-- The process-wide session storage of the in-memory `StorageService`
variant: four JavaScript `Map`s (favorites, watchlist, watched, ratings). -/
structure State where
  favorites : List (Nat × Movie)
  watchlist : List (Nat × Movie)
  watched : List (Nat × Movie)
  ratings : List (Nat × ℚ)
deriving DecidableEq, Repr

/-- `StorageService.getFavorites` (session variant): the map values, each
annotated `isFavorite := true` and the cross-set flags hard-coded false. -/
def getFavorites (s : State) : List AnnotatedMovie :=
  (s.favorites.map (fun p => p.2)).map (fun m => ⟨m, true, false, false⟩)

/-- `StorageService.addToFavorites` (session variant): insert only when the
id is not yet a key. -/
def addToFavorites (s : State) (movie : Movie) : State :=
  if !(mapHas movie.id s.favorites) then
    {s with favorites := mapSet movie.id movie s.favorites}
  else s

/-- `StorageService.removeFromFavorites` (session variant): delete only when
the id is a key. -/
def removeFromFavorites (s : State) (movieId : Nat) : State :=
  if mapHas movieId s.favorites then
    {s with favorites := mapDelete movieId s.favorites}
  else s

/-- `StorageService.isFavorite` (session variant). -/
def isFavorite (s : State) (movieId : Nat) : Bool :=
  mapHas movieId s.favorites

/-- `StorageService.toggleFavorite` (session variant): read the current
membership, remove or add accordingly, return the new membership. -/
def toggleFavorite (s : State) (movie : Movie) : State × Bool :=
  if isFavorite s movie.id then (removeFromFavorites s movie.id, false)
  else (addToFavorites s movie, true)

/-- `StorageService.getWatchlist` (session variant). -/
def getWatchlist (s : State) : List AnnotatedMovie :=
  (s.watchlist.map (fun p => p.2)).map (fun m => ⟨m, false, true, false⟩)

/-- `StorageService.addToWatchlist` (session variant). -/
def addToWatchlist (s : State) (movie : Movie) : State :=
  if !(mapHas movie.id s.watchlist) then
    {s with watchlist := mapSet movie.id movie s.watchlist}
  else s

/-- `StorageService.removeFromWatchlist` (session variant). -/
def removeFromWatchlist (s : State) (movieId : Nat) : State :=
  if mapHas movieId s.watchlist then
    {s with watchlist := mapDelete movieId s.watchlist}
  else s

/-- `StorageService.isInWatchlist` (session variant). -/
def isInWatchlist (s : State) (movieId : Nat) : Bool :=
  mapHas movieId s.watchlist

/-- `StorageService.getWatched` (session variant). -/
def getWatched (s : State) : List AnnotatedMovie :=
  (s.watched.map (fun p => p.2)).map (fun m => ⟨m, false, false, true⟩)

/-- `StorageService.addToWatched` (session variant). -/
def addToWatched (s : State) (movie : Movie) : State :=
  if !(mapHas movie.id s.watched) then
    {s with watched := mapSet movie.id movie s.watched}
  else s

/-- `StorageService.removeFromWatched` (session variant). -/
def removeFromWatched (s : State) (movieId : Nat) : State :=
  if mapHas movieId s.watched then
    {s with watched := mapDelete movieId s.watched}
  else s

/-- `StorageService.isWatched` (session variant). -/
def isWatched (s : State) (movieId : Nat) : Bool :=
  mapHas movieId s.watched

/-- `StorageService.getRatings` (session variant). -/
def getRatings (s : State) : List (Nat × ℚ) :=
  s.ratings

/-- `StorageService.setRating` (session variant): `Map.set`, overwrite or
append. -/
def setRating (s : State) (movieId : Nat) (rating : ℚ) : State :=
  {s with ratings := mapSet movieId rating s.ratings}

/-- `StorageService.getRating` (session variant): `return rating || null` —
an absent key and a stored value of exactly `0` (the only falsy rational)
both come back as `null`. -/
def getRating (s : State) (movieId : Nat) : Option ℚ :=
  match mapGet movieId s.ratings with
  | none => none
  | some r => if r = 0 then none else some r

/-- `StorageService.removeRating` (session variant). -/
def removeRating (s : State) (movieId : Nat) : State :=
  if mapHas movieId s.ratings then
    {s with ratings := mapDelete movieId s.ratings}
  else s

/-- `StorageService.clearAllData` (session variant), restricted to its
observable effect on the session maps: all four are cleared.  (The
additional `AsyncStorage.removeItem` calls target keys this variant's
readers never consult.) -/
def clearAllData (_s : State) : State :=
  ⟨[], [], [], []⟩

end SessionStore

namespace DurableStore

/-- The content of one AsyncStorage key: absent, present but not
deserializable (JSON.parse throws), or a deserialized value. -/
inductive Stored (α : Type) where
  | missing
  | malformed
  | val (a : α)
deriving DecidableEq, Repr

/-- What the RATINGS key can deserialize to: the ratings map written by
`rateMovie`, or the raw rated-movie array that `syncWithTMDB` dumps into the
same key. -/
inductive RatingsVal where
  | rmap (entries : List (Nat × ℚ))
  | rlist (movies : List Movie)
deriving DecidableEq, Repr

/-- The sync status record `{lastSync, synced}`. -/
structure SyncStatus where
  lastSync : Option String
  synced : Bool
deriving DecidableEq, Repr

/-- The durable store: one slot per fixed storage key. -/
structure State where
  favorites : Stored (List Movie)
  watchlist : Stored (List Movie)
  ratings : Stored RatingsVal
  syncStatus : Stored SyncStatus
deriving DecidableEq, Repr

/-- The fixed storage keys (`STORAGE_KEYS`). -/
inductive StoreKey where
  | favoritesKey
  | watchlistKey
  | ratingsKey
  | syncStatusKey
deriving DecidableEq, Repr

/-- The externally observable side effects a storage-service operation
issues: AsyncStorage writes/removals and the fire-and-forget TMDB mirror
calls (whose own success or failure is caught and only logged). -/
inductive Eff where
  | setItem (key : StoreKey)
  | removeItem (key : StoreKey)
  | remoteSetFavorite (movieId : Nat) (flag : Bool)
  | remoteSetWatchlist (movieId : Nat) (flag : Bool)
  | remoteRate (movieId : Nat)
deriving DecidableEq, Repr

/-- `StorageService.getFavorites` (durable variant): a missing key and a
deserialization failure (caught) both yield `[]`. -/
def getFavorites (st : State) : List Movie :=
  match st.favorites with
  | .val l => l
  | _ => []

/-- `StorageService.getWatchlist` (durable variant). -/
def getWatchlist (st : State) : List Movie :=
  match st.watchlist with
  | .val l => l
  | _ => []

/-- `StorageService.getRatings` (durable variant): a missing key and a
deserialization failure both yield the empty map `{}`. -/
def getRatings (st : State) : RatingsVal :=
  match st.ratings with
  | .val v => v
  | _ => .rmap []

/-- `StorageService.getSyncStatus` (durable variant): a missing key and a
deserialization failure both yield `{lastSync: null, synced: false}`. -/
def getSyncStatus (st : State) : SyncStatus :=
  match st.syncStatus with
  | .val s => s
  | _ => ⟨none, false⟩

/-- The result of `getMovieRating`: `null`, a numeric rating, or — when the
RATINGS key holds the movie array dumped by `syncWithTMDB` and the id
happens to index into it — the truthy movie object itself. -/
inductive RatingLookup where
  | absent
  | num (r : ℚ)
  | junk (m : Movie)
deriving DecidableEq, Repr

/-- `StorageService.getMovieRating` (durable variant):
`return ratings[movieId] || null`, so a stored `0` is reported absent. -/
def getMovieRating (st : State) (movieId : Nat) : RatingLookup :=
  match getRatings st with
  | .rmap entries =>
    match mapGet movieId entries with
    | none => .absent
    | some r => if r = 0 then .absent else .num r
  | .rlist movies =>
    match movies.get? movieId with
    | none => .absent
    | some m => .junk m

/-- `StorageService.addToFavorites` (durable variant): when the id is
already present nothing happens at all; on first insert the list is pushed
and rewritten, and a mirror call `MovieService.addToFavorites(id, true)` is
issued fire-and-forget. -/
def addToFavorites (st : State) (movie : Movie) : State × List Eff :=
  let favorites := getFavorites st
  if favorites.any (fun fav => fav.id == movie.id) then (st, [])
  else
    ({st with favorites := .val (favorites ++ [movie])},
     [.setItem .favoritesKey, .remoteSetFavorite movie.id true])

/-- `StorageService.removeFromFavorites` (durable variant): the filtered
list is written back and the mirror call issued unconditionally, whether or
not the id was present. -/
def removeFromFavorites (st : State) (movieId : Nat) : State × List Eff :=
  let favorites := getFavorites st
  ({st with favorites := .val (favorites.filter (fun movie => movie.id != movieId))},
   [.setItem .favoritesKey, .remoteSetFavorite movieId false])

/-- `StorageService.isFavorite` (durable variant). -/
def isFavorite (st : State) (movieId : Nat) : Bool :=
  (getFavorites st).any (fun movie => movie.id == movieId)

/-- `StorageService.toggleFavorite` (durable variant). -/
def toggleFavorite (st : State) (movie : Movie) : State × List Eff × Bool :=
  if isFavorite st movie.id then
    let r := removeFromFavorites st movie.id
    (r.1, r.2, false)
  else
    let r := addToFavorites st movie
    (r.1, r.2, true)

/-- `StorageService.addToWatchlist` (durable variant). -/
def addToWatchlist (st : State) (movie : Movie) : State × List Eff :=
  let watchlist := getWatchlist st
  if watchlist.any (fun item => item.id == movie.id) then (st, [])
  else
    ({st with watchlist := .val (watchlist ++ [movie])},
     [.setItem .watchlistKey, .remoteSetWatchlist movie.id true])

/-- `StorageService.removeFromWatchlist` (durable variant): rewrite and
mirror unconditionally. -/
def removeFromWatchlist (st : State) (movieId : Nat) : State × List Eff :=
  let watchlist := getWatchlist st
  ({st with watchlist := .val (watchlist.filter (fun movie => movie.id != movieId))},
   [.setItem .watchlistKey, .remoteSetWatchlist movieId false])

/-- `StorageService.isInWatchlist` (durable variant). -/
def isInWatchlist (st : State) (movieId : Nat) : Bool :=
  (getWatchlist st).any (fun movie => movie.id == movieId)

/-- `StorageService.clearAllData` (durable variant): remove all four keys. -/
def clearAllData (_st : State) : State × List Eff :=
  ({favorites := .missing, watchlist := .missing,
    ratings := .missing, syncStatus := .missing},
   [.removeItem .favoritesKey, .removeItem .watchlistKey,
    .removeItem .ratingsKey, .removeItem .syncStatusKey])

/-- `StorageService.setSyncStatus`: stores
`{lastSync: synced ? new Date().toISOString() : null, synced}` — on failure
the timestamp slot is written as `null`, not preserved. -/
def setSyncStatus (st : State) (synced : Bool) (now : String) : State :=
  {st with syncStatus := .val ⟨if synced then some now else none, synced⟩}

/-- Modelled from the spec: the zero-argument account fetches
(`MovieService.getFavoriteMovies` / `getWatchlistMovies` / `getRatedMovies`)
that this `StorageService` variant imports are not among the sources — only
their call sites in `syncWithTMDB` are.  Per the spec, each remote fetch is
a request/response operation that either returns the account list or
surfaces a typed failure (any non-2xx response, network failure, or missing
authentication). -/
structure RemoteAccount where
  favoritesResult : Except String (List Movie)
  watchlistResult : Except String (List Movie)
  ratedResult : Except String (List Movie)

/-- All three account fetches of a sync attempt succeeded. -/
def allFetchesOk (remote : RemoteAccount) : Bool :=
  remote.favoritesResult.isOk && remote.watchlistResult.isOk &&
    remote.ratedResult.isOk

/-- `StorageService.syncWithTMDB`: fetch favorites and overwrite the
FAVORITES key, then watchlist, then rated movies (dumped as-is into the
RATINGS key), then record success; the shared catch handler records failure
via `setSyncStatus(false)`.  The writes happen sequentially as each fetch
returns. -/
def syncWithTMDB (remote : RemoteAccount) (now : String) (st : State) : State :=
  match remote.favoritesResult with
  | .error _ => setSyncStatus st false now
  | .ok tmdbFavorites =>
    let st1 := {st with favorites := .val tmdbFavorites}
    match remote.watchlistResult with
    | .error _ => setSyncStatus st1 false now
    | .ok tmdbWatchlist =>
      let st2 := {st1 with watchlist := .val tmdbWatchlist}
      match remote.ratedResult with
      | .error _ => setSyncStatus st2 false now
      | .ok tmdbRated =>
        let st3 := {st2 with ratings := .val (.rlist tmdbRated)}
        setSyncStatus st3 true now

end DurableStore

/-! ### Helper lemmas -/

theorem any_filter_key {α : Type} (f : α → Nat) (k : Nat) (l : List α) :
    (l.filter (fun x => f x != k)).any (fun x => f x == k) = false := by
  simp only [List.any_eq_false]
  intro x hx
  have hk := (List.mem_filter.mp hx).2
  simpa using hk

theorem filter_key_of_not_any {α : Type} (f : α → Nat) (k : Nat) (l : List α)
    (h : l.any (fun x => f x == k) = false) :
    l.filter (fun x => f x != k) = l := by
  apply List.filter_eq_self.mpr
  intro a ha
  have hk := List.any_eq_false.mp h a ha
  simpa using hk

theorem countP_key_eq_zero {α : Type} (f : α → Nat) (k : Nat) (l : List α)
    (h : l.any (fun x => f x == k) = false) :
    List.countP (fun x => f x == k) l = 0 := by
  apply List.countP_eq_zero.mpr
  intro a ha
  exact List.any_eq_false.mp h a ha

theorem countP_key_eq_one {α : Type} (f : α → Nat) (k : Nat) (l : List α)
    (hnd : (l.map f).Nodup) (h : l.any (fun x => f x == k) = true) :
    List.countP (fun x => f x == k) l = 1 := by
  have hmem : k ∈ l.map f := by
    simp only [List.any_eq_true, beq_iff_eq] at h
    obtain ⟨x, hx, hfx⟩ := h
    exact List.mem_map.mpr ⟨x, hx, hfx⟩
  have h1 : List.countP (fun x => f x == k) l = List.count k (l.map f) := by
    rw [List.count, List.countP_map]
    rfl
  rw [h1]
  exact List.count_eq_one_of_mem hnd hmem

theorem mapHas_mapDelete {α : Type} (k : Nat) (m : List (Nat × α)) :
    mapHas k (mapDelete k m) = false := by
  have hk := any_filter_key (fun p => p.1) k m
  simp [mapHas, mapDelete] at hk ⊢

theorem mapHas_append_self {α : Type} (k : Nat) (v : α) (m : List (Nat × α)) :
    mapHas k (m ++ [(k, v)]) = true := by
  simp [mapHas]

theorem mapSet_not_has {α : Type} (k : Nat) (v : α) (m : List (Nat × α))
    (h : mapHas k m = false) : mapSet k v m = m ++ [(k, v)] := by
  simp [mapSet, h]

theorem session_count_fav (s : SessionStore.State) (k : Nat)
    (hcoh : ∀ p ∈ s.favorites, (p.2).id = p.1) :
    List.countP (fun a => a.movie.id == k) (SessionStore.getFavorites s) =
      List.countP (fun p => p.1 == k) s.favorites := by
  unfold SessionStore.getFavorites
  rw [List.countP_map, List.countP_map]
  refine List.countP_congr ?_
  intro p hp
  simp [Function.comp, hcoh p hp]

theorem session_count_wl (s : SessionStore.State) (k : Nat)
    (hcoh : ∀ p ∈ s.watchlist, (p.2).id = p.1) :
    List.countP (fun a => a.movie.id == k) (SessionStore.getWatchlist s) =
      List.countP (fun p => p.1 == k) s.watchlist := by
  unfold SessionStore.getWatchlist
  rw [List.countP_map, List.countP_map]
  refine List.countP_congr ?_
  intro p hp
  simp [Function.comp, hcoh p hp]

theorem session_count_wd (s : SessionStore.State) (k : Nat)
    (hcoh : ∀ p ∈ s.watched, (p.2).id = p.1) :
    List.countP (fun a => a.movie.id == k) (SessionStore.getWatched s) =
      List.countP (fun p => p.1 == k) s.watched := by
  unfold SessionStore.getWatched
  rw [List.countP_map, List.countP_map]
  refine List.countP_congr ?_
  intro p hp
  simp [Function.comp, hcoh p hp]

theorem session_addFav_twice (s : SessionStore.State) (m : Movie)
    (hnd : (s.favorites.map (fun p => p.1)).Nodup)
    (hcoh : ∀ p ∈ s.favorites, (p.2).id = p.1) :
    List.countP (fun a => a.movie.id == m.id)
      (SessionStore.getFavorites
        (SessionStore.addToFavorites (SessionStore.addToFavorites s m) m)) = 1 := by
  by_cases h : mapHas m.id s.favorites = true
  · have e : SessionStore.addToFavorites s m = s := by
      simp [SessionStore.addToFavorites, h]
    rw [e, e, session_count_fav s m.id hcoh]
    exact countP_key_eq_one (fun p : Nat × Movie => p.1) m.id s.favorites hnd h
  · have hb : mapHas m.id s.favorites = false := by
      simpa using h
    have e1 : SessionStore.addToFavorites s m =
        {s with favorites := s.favorites ++ [(m.id, m)]} := by
      simp [SessionStore.addToFavorites, hb, mapSet_not_has]
    rw [e1]
    have e2 : SessionStore.addToFavorites
        ({s with favorites := s.favorites ++ [(m.id, m)]}) m =
        {s with favorites := s.favorites ++ [(m.id, m)]} := by
      simp [SessionStore.addToFavorites, mapHas_append_self]
    rw [e2]
    have hcoh2 : ∀ p ∈ s.favorites ++ [(m.id, m)], (p.2 : Movie).id = p.1 := by
      intro p hp
      rcases List.mem_append.mp hp with h1 | h1
      · exact hcoh p h1
      · simp only [List.mem_singleton] at h1
        rw [h1]
    rw [session_count_fav _ _ hcoh2]
    rw [List.countP_append, countP_key_eq_zero (fun p : Nat × Movie => p.1) m.id s.favorites hb]
    simp

theorem session_addWl_twice (s : SessionStore.State) (m : Movie)
    (hnd : (s.watchlist.map (fun p => p.1)).Nodup)
    (hcoh : ∀ p ∈ s.watchlist, (p.2).id = p.1) :
    List.countP (fun a => a.movie.id == m.id)
      (SessionStore.getWatchlist
        (SessionStore.addToWatchlist (SessionStore.addToWatchlist s m) m)) = 1 := by
  by_cases h : mapHas m.id s.watchlist = true
  · have e : SessionStore.addToWatchlist s m = s := by
      simp [SessionStore.addToWatchlist, h]
    rw [e, e, session_count_wl s m.id hcoh]
    exact countP_key_eq_one (fun p : Nat × Movie => p.1) m.id s.watchlist hnd h
  · have hb : mapHas m.id s.watchlist = false := by
      simpa using h
    have e1 : SessionStore.addToWatchlist s m =
        {s with watchlist := s.watchlist ++ [(m.id, m)]} := by
      simp [SessionStore.addToWatchlist, hb, mapSet_not_has]
    rw [e1]
    have e2 : SessionStore.addToWatchlist
        ({s with watchlist := s.watchlist ++ [(m.id, m)]}) m =
        {s with watchlist := s.watchlist ++ [(m.id, m)]} := by
      simp [SessionStore.addToWatchlist, mapHas_append_self]
    rw [e2]
    have hcoh2 : ∀ p ∈ s.watchlist ++ [(m.id, m)], (p.2 : Movie).id = p.1 := by
      intro p hp
      rcases List.mem_append.mp hp with h1 | h1
      · exact hcoh p h1
      · simp only [List.mem_singleton] at h1
        rw [h1]
    rw [session_count_wl _ _ hcoh2]
    rw [List.countP_append, countP_key_eq_zero (fun p : Nat × Movie => p.1) m.id s.watchlist hb]
    simp

theorem session_addWd_twice (s : SessionStore.State) (m : Movie)
    (hnd : (s.watched.map (fun p => p.1)).Nodup)
    (hcoh : ∀ p ∈ s.watched, (p.2).id = p.1) :
    List.countP (fun a => a.movie.id == m.id)
      (SessionStore.getWatched
        (SessionStore.addToWatched (SessionStore.addToWatched s m) m)) = 1 := by
  by_cases h : mapHas m.id s.watched = true
  · have e : SessionStore.addToWatched s m = s := by
      simp [SessionStore.addToWatched, h]
    rw [e, e, session_count_wd s m.id hcoh]
    exact countP_key_eq_one (fun p : Nat × Movie => p.1) m.id s.watched hnd h
  · have hb : mapHas m.id s.watched = false := by
      simpa using h
    have e1 : SessionStore.addToWatched s m =
        {s with watched := s.watched ++ [(m.id, m)]} := by
      simp [SessionStore.addToWatched, hb, mapSet_not_has]
    rw [e1]
    have e2 : SessionStore.addToWatched
        ({s with watched := s.watched ++ [(m.id, m)]}) m =
        {s with watched := s.watched ++ [(m.id, m)]} := by
      simp [SessionStore.addToWatched, mapHas_append_self]
    rw [e2]
    have hcoh2 : ∀ p ∈ s.watched ++ [(m.id, m)], (p.2 : Movie).id = p.1 := by
      intro p hp
      rcases List.mem_append.mp hp with h1 | h1
      · exact hcoh p h1
      · simp only [List.mem_singleton] at h1
        rw [h1]
    rw [session_count_wd _ _ hcoh2]
    rw [List.countP_append, countP_key_eq_zero (fun p : Nat × Movie => p.1) m.id s.watched hb]
    simp

theorem durable_addFav_twice (st : DurableStore.State) (m : Movie)
    (hnd : ((DurableStore.getFavorites st).map Movie.id).Nodup) :
    List.countP (fun mv => mv.id == m.id)
      (DurableStore.getFavorites
        (DurableStore.addToFavorites (DurableStore.addToFavorites st m).1 m).1) = 1 := by
  by_cases h : (DurableStore.getFavorites st).any (fun fav => fav.id == m.id) = true
  · have e : DurableStore.addToFavorites st m = (st, []) := by
      simp [DurableStore.addToFavorites, h]
    rw [e, e]
    exact countP_key_eq_one Movie.id m.id (DurableStore.getFavorites st) hnd h
  · have hb : (DurableStore.getFavorites st).any (fun fav => fav.id == m.id) = false := by
      simpa using h
    have e1 : (DurableStore.addToFavorites st m).1 =
        {st with favorites := .val (DurableStore.getFavorites st ++ [m])} := by
      simp [DurableStore.addToFavorites, hb]
    rw [e1]
    have hg : DurableStore.getFavorites
        ({st with favorites := .val (DurableStore.getFavorites st ++ [m])}) =
        DurableStore.getFavorites st ++ [m] := rfl
    have h2 : (DurableStore.getFavorites
        ({st with favorites := .val (DurableStore.getFavorites st ++ [m])})).any
          (fun fav => fav.id == m.id) = true := by
      rw [hg]
      simp
    have e2 : (DurableStore.addToFavorites
        ({st with favorites := .val (DurableStore.getFavorites st ++ [m])}) m).1 =
        {st with favorites := .val (DurableStore.getFavorites st ++ [m])} := by
      simp [DurableStore.addToFavorites, h2]
    rw [e2, hg, List.countP_append, countP_key_eq_zero Movie.id m.id _ hb]
    simp

theorem durable_addWl_twice (st : DurableStore.State) (m : Movie)
    (hnd : ((DurableStore.getWatchlist st).map Movie.id).Nodup) :
    List.countP (fun mv => mv.id == m.id)
      (DurableStore.getWatchlist
        (DurableStore.addToWatchlist (DurableStore.addToWatchlist st m).1 m).1) = 1 := by
  by_cases h : (DurableStore.getWatchlist st).any (fun item => item.id == m.id) = true
  · have e : DurableStore.addToWatchlist st m = (st, []) := by
      simp [DurableStore.addToWatchlist, h]
    rw [e, e]
    exact countP_key_eq_one Movie.id m.id (DurableStore.getWatchlist st) hnd h
  · have hb : (DurableStore.getWatchlist st).any (fun item => item.id == m.id) = false := by
      simpa using h
    have e1 : (DurableStore.addToWatchlist st m).1 =
        {st with watchlist := .val (DurableStore.getWatchlist st ++ [m])} := by
      simp [DurableStore.addToWatchlist, hb]
    rw [e1]
    have hg : DurableStore.getWatchlist
        ({st with watchlist := .val (DurableStore.getWatchlist st ++ [m])}) =
        DurableStore.getWatchlist st ++ [m] := rfl
    have h2 : (DurableStore.getWatchlist
        ({st with watchlist := .val (DurableStore.getWatchlist st ++ [m])})).any
          (fun item => item.id == m.id) = true := by
      rw [hg]
      simp
    have e2 : (DurableStore.addToWatchlist
        ({st with watchlist := .val (DurableStore.getWatchlist st ++ [m])}) m).1 =
        {st with watchlist := .val (DurableStore.getWatchlist st ++ [m])} := by
      simp [DurableStore.addToWatchlist, h2]
    rw [e2, hg, List.countP_append, countP_key_eq_zero Movie.id m.id _ hb]
    simp

theorem session_toggleFav_spec (s : SessionStore.State) (m : Movie) :
    (SessionStore.toggleFavorite s m).2 = !(SessionStore.isFavorite s m.id) ∧
      SessionStore.isFavorite (SessionStore.toggleFavorite s m).1 m.id =
        !(SessionStore.isFavorite s m.id) := by
  by_cases h : SessionStore.isFavorite s m.id = true
  · have hm : mapHas m.id s.favorites = true := h
    refine ⟨by simp [SessionStore.toggleFavorite, h], ?_⟩
    rw [h]
    simp [SessionStore.toggleFavorite, h, SessionStore.removeFromFavorites, hm,
      SessionStore.isFavorite, mapHas_mapDelete]
  · have hb : SessionStore.isFavorite s m.id = false := by simpa using h
    have hm : mapHas m.id s.favorites = false := hb
    refine ⟨by simp [SessionStore.toggleFavorite, hb], ?_⟩
    rw [hb]
    simp [SessionStore.toggleFavorite, hb, SessionStore.addToFavorites, hm,
      SessionStore.isFavorite, mapSet_not_has, mapHas_append_self]

theorem durable_toggleFav_spec (st : DurableStore.State) (m : Movie) :
    (DurableStore.toggleFavorite st m).2.2 = !(DurableStore.isFavorite st m.id) ∧
      DurableStore.isFavorite (DurableStore.toggleFavorite st m).1 m.id =
        !(DurableStore.isFavorite st m.id) := by
  by_cases h : DurableStore.isFavorite st m.id = true
  · refine ⟨by simp [DurableStore.toggleFavorite, h], ?_⟩
    rw [h]
    have hrm : DurableStore.isFavorite
        (DurableStore.removeFromFavorites st m.id).1 m.id = false := by
      have hk := any_filter_key Movie.id m.id (DurableStore.getFavorites st)
      simp only [DurableStore.isFavorite, DurableStore.removeFromFavorites,
        DurableStore.getFavorites]
      exact hk
    simp [DurableStore.toggleFavorite, h, hrm]
  · have hb : DurableStore.isFavorite st m.id = false := by simpa using h
    refine ⟨by simp [DurableStore.toggleFavorite, hb], ?_⟩
    rw [hb]
    have hadd : DurableStore.isFavorite (DurableStore.addToFavorites st m).1 m.id = true := by
      have hany : (DurableStore.getFavorites st).any (fun fav => fav.id == m.id) = false := hb
      have e1 : (DurableStore.addToFavorites st m).1 =
          {st with favorites := .val (DurableStore.getFavorites st ++ [m])} := by
        simp [DurableStore.addToFavorites, hany]
      rw [e1]
      have hg : DurableStore.getFavorites
          ({st with favorites := .val (DurableStore.getFavorites st ++ [m])}) =
          DurableStore.getFavorites st ++ [m] := rfl
      simp only [DurableStore.isFavorite, hg]
      simp
    simp [DurableStore.toggleFavorite, hb, hadd]

/-! ### Claim C1 -/

/-- A prior durable state used for claim C1: one favorite stored locally. -/
def c1Store : DurableStore.State :=
  ⟨.val [⟨278, "The Shawshank Redemption"⟩], .val [], .val (.rmap []), .missing⟩

/-- A sync attempt whose favorites fetch succeeds but whose watchlist fetch
fails. -/
def c1Remote : DurableStore.RemoteAccount :=
  ⟨.ok [⟨238, "The Godfather"⟩], .error "HTTP error, status 401", .ok []⟩

/-- A sync attempt whose very first (favorites) fetch fails. -/
def c1RemoteFail : DurableStore.RemoteAccount :=
  ⟨.error "HTTP error, status 401", .error "HTTP error, status 401",
   .error "HTTP error, status 401"⟩

/-- C1, counterexample: a sync attempt in which the favorites fetch succeeds
and the watchlist fetch then fails is a failed sync (`synced = false`
afterwards), yet the stored favorites set has been overwritten — the local
sets are not all "exactly what they were before the sync attempt". -/
theorem claim_c1_counterexample :
    DurableStore.allFetchesOk c1Remote = false ∧
    (DurableStore.getSyncStatus
        (DurableStore.syncWithTMDB c1Remote "2024-06-01T00:00:00Z" c1Store)).synced = false ∧
    (DurableStore.syncWithTMDB c1Remote "2024-06-01T00:00:00Z" c1Store).favorites ≠
      c1Store.favorites := by
  refine ⟨rfl, rfl, ?_⟩
  decide

/-- C1 (amended): a failed sync always leaves `getSyncStatus().synced` false,
and when the FIRST remote fetch (favorites) fails, all three local list
slots are exactly what they were before; sets fetched before a mid-sequence
failure, however, have already been overwritten (see the counterexample). -/
theorem claim_c1_sync_failure_isolation :
    (∀ (remote : DurableStore.RemoteAccount) (now : String) (st : DurableStore.State),
        remote.favoritesResult.isOk = false →
        (DurableStore.syncWithTMDB remote now st).favorites = st.favorites ∧
        (DurableStore.syncWithTMDB remote now st).watchlist = st.watchlist ∧
        (DurableStore.syncWithTMDB remote now st).ratings = st.ratings ∧
        (DurableStore.getSyncStatus
          (DurableStore.syncWithTMDB remote now st)).synced = false) ∧
    (∀ (remote : DurableStore.RemoteAccount) (now : String) (st : DurableStore.State),
        DurableStore.allFetchesOk remote = false →
        (DurableStore.getSyncStatus
          (DurableStore.syncWithTMDB remote now st)).synced = false) := by
  constructor
  · intro remote now st h
    cases hf : remote.favoritesResult with
    | error e =>
      simp [DurableStore.syncWithTMDB, hf, DurableStore.setSyncStatus,
        DurableStore.getSyncStatus]
    | ok l =>
      rw [hf] at h
      simp [Except.isOk, Except.toBool] at h
  · intro remote now st h
    cases hf : remote.favoritesResult with
    | error e =>
      simp [DurableStore.syncWithTMDB, hf, DurableStore.setSyncStatus,
        DurableStore.getSyncStatus]
    | ok l1 =>
      cases hw : remote.watchlistResult with
      | error e =>
        simp [DurableStore.syncWithTMDB, hf, hw, DurableStore.setSyncStatus,
          DurableStore.getSyncStatus]
      | ok l2 =>
        cases hr : remote.ratedResult with
        | error e =>
          simp [DurableStore.syncWithTMDB, hf, hw, hr, DurableStore.setSyncStatus,
            DurableStore.getSyncStatus]
        | ok l3 =>
          exfalso
          simp [DurableStore.allFetchesOk, hf, hw, hr, Except.isOk, Except.toBool] at h

/-- C1, witness: the amended theorem applied at concrete inputs — a
first-fetch failure leaves every slot of `c1Store` untouched, and the
partial failure of `c1Remote` still reports `synced = false`. -/
theorem claim_c1_witness :
    ((DurableStore.syncWithTMDB c1RemoteFail "2024-06-01T00:00:00Z" c1Store).favorites =
        c1Store.favorites ∧
      (DurableStore.syncWithTMDB c1RemoteFail "2024-06-01T00:00:00Z" c1Store).watchlist =
        c1Store.watchlist ∧
      (DurableStore.syncWithTMDB c1RemoteFail "2024-06-01T00:00:00Z" c1Store).ratings =
        c1Store.ratings ∧
      (DurableStore.getSyncStatus
        (DurableStore.syncWithTMDB c1RemoteFail "2024-06-01T00:00:00Z" c1Store)).synced =
        false) ∧
    (DurableStore.getSyncStatus
      (DurableStore.syncWithTMDB c1Remote "2024-06-01T00:00:00Z" c1Store)).synced = false :=
  ⟨claim_c1_sync_failure_isolation.1 c1RemoteFail "2024-06-01T00:00:00Z" c1Store rfl,
   claim_c1_sync_failure_isolation.2 c1Remote "2024-06-01T00:00:00Z" c1Store rfl⟩

/-! ### Claim C2 -/

/-- C2, counterexample: an HTTP 404 on the popular-movies endpoint does not
surface as a failure — `fetchFromAPI` resolves with the fully populated
mock page, indistinguishable in shape from a genuine success. -/
theorem claim_c2_counterexample :
    MovieService.respOk 404 = false ∧
    MovieService.fetchFromAPI true (.httpResponse 404 (.plainResults []))
        "/movie/popular?language=en-US&page=1" =
      .paged 1 MovieService.mockMovies 1 MovieService.mockMovies.length :=
  ⟨rfl, by decide⟩

/-- C2 (amended): every failure mode of a `MovieService` request — missing
bearer token, network failure, JSON-parse failure, or any non-2xx HTTP
status — is caught inside `fetchFromAPI` and replaced by
`getMockData(endpoint)`; no failure ever surfaces to the calling
`StorageService` as an error. -/
theorem claim_c2_fetch_failure_swallowed :
    (∀ (outcome : MovieService.FetchOutcome) (endpoint : String),
        MovieService.fetchFromAPI false outcome endpoint =
          MovieService.getMockData endpoint) ∧
    (∀ (tok : Bool) (endpoint : String),
        MovieService.fetchFromAPI tok .networkFailure endpoint =
          MovieService.getMockData endpoint) ∧
    (∀ (tok : Bool) (endpoint : String),
        MovieService.fetchFromAPI tok .jsonFailure endpoint =
          MovieService.getMockData endpoint) ∧
    (∀ (tok : Bool) (status : Nat) (body : MovieService.Payload) (endpoint : String),
        MovieService.respOk status = false →
        MovieService.fetchFromAPI tok (.httpResponse status body) endpoint =
          MovieService.getMockData endpoint) := by
  refine ⟨fun o e => rfl, fun t e => ?_, fun t e => ?_, fun t s b e h => ?_⟩
  · cases t <;> rfl
  · cases t <;> rfl
  · cases t
    · rfl
    · simp [MovieService.fetchFromAPI, h]

/-- C2, witness: the amended theorem applied at a concrete non-2xx response
on the genre-list endpoint. -/
theorem claim_c2_witness :
    MovieService.respOk 500 = false ∧
    MovieService.fetchFromAPI true (.httpResponse 500 (.plainResults []))
        "/genre/movie/list?language=en-US" =
      MovieService.getMockData "/genre/movie/list?language=en-US" :=
  ⟨rfl, claim_c2_fetch_failure_swallowed.2.2.2 true 500 (.plainResults [])
    "/genre/movie/list?language=en-US" rfl⟩

/-! ### Claim C3 -/

/-- A prior durable state used for claim C3: a sync had already succeeded
and its timestamp is stored. -/
def c3Store : DurableStore.State :=
  ⟨.missing, .missing, .missing, .val ⟨some "2024-01-15T12:00:00Z", true⟩⟩

/-- A sync attempt in which every fetch fails. -/
def c3Remote : DurableStore.RemoteAccount :=
  ⟨.error "Bearer token not configured", .error "Bearer token not configured",
   .error "Bearer token not configured"⟩

/-- C3, counterexample: before the failed sync the stored
`lastSync` is a concrete timestamp; after the failed sync it is `null` —
the failed sync erased the existing timestamp instead of leaving it at its
previous value. -/
theorem claim_c3_counterexample :
    (DurableStore.getSyncStatus c3Store).lastSync = some "2024-01-15T12:00:00Z" ∧
    DurableStore.allFetchesOk c3Remote = false ∧
    (DurableStore.getSyncStatus
        (DurableStore.syncWithTMDB c3Remote "2024-06-01T00:00:00Z" c3Store)).lastSync =
      none :=
  ⟨rfl, rfl, rfl⟩

/-- C3 (amended): when a sync attempt fails, `setSyncStatus(false)` stores
`{lastSync: null, synced: false}` — `synced` is set false AND the stored
timestamp is overwritten with `null`, regardless of its previous value. -/
theorem claim_c3_failed_sync_status :
    ∀ (remote : DurableStore.RemoteAccount) (now : String) (st : DurableStore.State),
      DurableStore.allFetchesOk remote = false →
      DurableStore.getSyncStatus (DurableStore.syncWithTMDB remote now st) =
        ⟨none, false⟩ := by
  intro remote now st h
  cases hf : remote.favoritesResult with
  | error e =>
    simp [DurableStore.syncWithTMDB, hf, DurableStore.setSyncStatus,
      DurableStore.getSyncStatus]
  | ok l1 =>
    cases hw : remote.watchlistResult with
    | error e =>
      simp [DurableStore.syncWithTMDB, hf, hw, DurableStore.setSyncStatus,
        DurableStore.getSyncStatus]
    | ok l2 =>
      cases hr : remote.ratedResult with
      | error e =>
        simp [DurableStore.syncWithTMDB, hf, hw, hr, DurableStore.setSyncStatus,
          DurableStore.getSyncStatus]
      | ok l3 =>
        exfalso
        simp [DurableStore.allFetchesOk, hf, hw, hr, Except.isOk, Except.toBool] at h

/-- C3, witness: the amended theorem applied at the concrete failing sync
over the concrete prior state. -/
theorem claim_c3_witness :
    DurableStore.getSyncStatus
        (DurableStore.syncWithTMDB c3Remote "2024-06-01T00:00:00Z" c3Store) =
      ⟨none, false⟩ :=
  claim_c3_failed_sync_status c3Remote "2024-06-01T00:00:00Z" c3Store rfl

/-! ### Claim C4 -/

/-- C4: `add` is idempotent for every list kind.  For a well-formed state
(distinct keys; each stored movie keyed by its own id — the invariant a
JavaScript `Map` maintains), adding the same movie twice leaves exactly one
entry for its id in the returned list, and an `add` whose id is already
present is a no-op on the stored set.  Stated for the three session sets
(favorites, watchlist, watched) and the two durable sets (favorites,
watchlist). -/
theorem claim_c4_add_idempotent :
    (∀ (s : SessionStore.State) (m : Movie),
        (s.favorites.map (fun p => p.1)).Nodup →
        (∀ p ∈ s.favorites, (p.2).id = p.1) →
        List.countP (fun a => a.movie.id == m.id)
          (SessionStore.getFavorites
            (SessionStore.addToFavorites (SessionStore.addToFavorites s m) m)) = 1 ∧
        (mapHas m.id s.favorites = true → SessionStore.addToFavorites s m = s)) ∧
    (∀ (s : SessionStore.State) (m : Movie),
        (s.watchlist.map (fun p => p.1)).Nodup →
        (∀ p ∈ s.watchlist, (p.2).id = p.1) →
        List.countP (fun a => a.movie.id == m.id)
          (SessionStore.getWatchlist
            (SessionStore.addToWatchlist (SessionStore.addToWatchlist s m) m)) = 1 ∧
        (mapHas m.id s.watchlist = true → SessionStore.addToWatchlist s m = s)) ∧
    (∀ (s : SessionStore.State) (m : Movie),
        (s.watched.map (fun p => p.1)).Nodup →
        (∀ p ∈ s.watched, (p.2).id = p.1) →
        List.countP (fun a => a.movie.id == m.id)
          (SessionStore.getWatched
            (SessionStore.addToWatched (SessionStore.addToWatched s m) m)) = 1 ∧
        (mapHas m.id s.watched = true → SessionStore.addToWatched s m = s)) ∧
    (∀ (st : DurableStore.State) (m : Movie),
        ((DurableStore.getFavorites st).map Movie.id).Nodup →
        List.countP (fun mv => mv.id == m.id)
          (DurableStore.getFavorites
            (DurableStore.addToFavorites
              (DurableStore.addToFavorites st m).1 m).1) = 1 ∧
        (DurableStore.isFavorite st m.id = true →
          DurableStore.addToFavorites st m = (st, []))) ∧
    (∀ (st : DurableStore.State) (m : Movie),
        ((DurableStore.getWatchlist st).map Movie.id).Nodup →
        List.countP (fun mv => mv.id == m.id)
          (DurableStore.getWatchlist
            (DurableStore.addToWatchlist
              (DurableStore.addToWatchlist st m).1 m).1) = 1 ∧
        (DurableStore.isInWatchlist st m.id = true →
          DurableStore.addToWatchlist st m = (st, []))) := by
  refine ⟨?_, ?_, ?_, ?_, ?_⟩
  · intro s m hnd hcoh
    refine ⟨session_addFav_twice s m hnd hcoh, fun h => ?_⟩
    simp [SessionStore.addToFavorites, h]
  · intro s m hnd hcoh
    refine ⟨session_addWl_twice s m hnd hcoh, fun h => ?_⟩
    simp [SessionStore.addToWatchlist, h]
  · intro s m hnd hcoh
    refine ⟨session_addWd_twice s m hnd hcoh, fun h => ?_⟩
    simp [SessionStore.addToWatched, h]
  · intro st m hnd
    refine ⟨durable_addFav_twice st m hnd, fun h => ?_⟩
    have h2 : (DurableStore.getFavorites st).any (fun fav => fav.id == m.id) = true := h
    simp [DurableStore.addToFavorites, h2]
  · intro st m hnd
    refine ⟨durable_addWl_twice st m hnd, fun h => ?_⟩
    have h2 : (DurableStore.getWatchlist st).any (fun item => item.id == m.id) = true := h
    simp [DurableStore.addToWatchlist, h2]

/-- An empty session state. -/
def c4EmptySession : SessionStore.State := ⟨[], [], [], []⟩

/-- A session state already holding movie 278 as a favorite. -/
def c4FullSession : SessionStore.State :=
  ⟨[(278, ⟨278, "The Shawshank Redemption"⟩)], [], [], []⟩

/-- An empty durable state. -/
def c4EmptyDurable : DurableStore.State :=
  ⟨.val [], .val [], .val (.rmap []), .missing⟩

/-- C4, witness: adding movie 278 twice to the empty session favorites and
to the empty durable favorites yields exactly one entry, and re-adding it
to a state that already holds it is a no-op. -/
theorem claim_c4_witness :
    List.countP (fun a => a.movie.id == (278 : Nat))
      (SessionStore.getFavorites
        (SessionStore.addToFavorites
          (SessionStore.addToFavorites c4EmptySession ⟨278, "The Shawshank Redemption"⟩)
          ⟨278, "The Shawshank Redemption"⟩)) = 1 ∧
    SessionStore.addToFavorites c4FullSession ⟨278, "The Shawshank Redemption"⟩ =
      c4FullSession ∧
    List.countP (fun mv => mv.id == (278 : Nat))
      (DurableStore.getFavorites
        (DurableStore.addToFavorites
          (DurableStore.addToFavorites c4EmptyDurable
            ⟨278, "The Shawshank Redemption"⟩).1
          ⟨278, "The Shawshank Redemption"⟩).1) = 1 :=
  ⟨(claim_c4_add_idempotent.1 c4EmptySession ⟨278, "The Shawshank Redemption"⟩
      (by decide) (by decide)).1,
   (claim_c4_add_idempotent.1 c4FullSession ⟨278, "The Shawshank Redemption"⟩
      (by decide) (by decide)).2 rfl,
   (claim_c4_add_idempotent.2.2.2.1 c4EmptyDurable ⟨278, "The Shawshank Redemption"⟩
      (by decide)).1⟩

/-! ### Claim C5 -/

/-- C5: `toggleFavorite` returns `true` iff the movie was not previously a
member, and after the call the membership is the negation of the prior
membership — in both the session and the durable variant, from every
state. -/
theorem claim_c5_toggle_correctness :
    (∀ (s : SessionStore.State) (m : Movie),
        (SessionStore.toggleFavorite s m).2 = !(SessionStore.isFavorite s m.id) ∧
        SessionStore.isFavorite (SessionStore.toggleFavorite s m).1 m.id =
          !(SessionStore.isFavorite s m.id)) ∧
    (∀ (st : DurableStore.State) (m : Movie),
        (DurableStore.toggleFavorite st m).2.2 = !(DurableStore.isFavorite st m.id) ∧
        DurableStore.isFavorite (DurableStore.toggleFavorite st m).1 m.id =
          !(DurableStore.isFavorite st m.id)) :=
  ⟨session_toggleFav_spec, durable_toggleFav_spec⟩

/-! ### Claim C6 -/

/-- C6: the rating lookup is a pure local read with a zero sentinel
(`rating || null`): an unmapped id and an id mapped to exactly `0` are both
reported absent, any other stored value is returned as stored — in both the
session variant (`getRating`) and the durable variant (`getMovieRating`,
on a ratings-map state). -/
theorem claim_c6_rating_zero_sentinel :
    (∀ (s : SessionStore.State) (movieId : Nat),
        (mapGet movieId s.ratings = none →
          SessionStore.getRating s movieId = none) ∧
        (mapGet movieId s.ratings = some 0 →
          SessionStore.getRating s movieId = none) ∧
        (∀ r : ℚ, mapGet movieId s.ratings = some r → r ≠ 0 →
          SessionStore.getRating s movieId = some r)) ∧
    (∀ (st : DurableStore.State) (entries : List (Nat × ℚ)) (movieId : Nat),
        DurableStore.getRatings st = .rmap entries →
        (mapGet movieId entries = none →
          DurableStore.getMovieRating st movieId = .absent) ∧
        (mapGet movieId entries = some 0 →
          DurableStore.getMovieRating st movieId = .absent) ∧
        (∀ r : ℚ, mapGet movieId entries = some r → r ≠ 0 →
          DurableStore.getMovieRating st movieId = .num r)) := by
  constructor
  · intro s movieId
    refine ⟨fun h => ?_, fun h => ?_, fun r h hr => ?_⟩
    · simp [SessionStore.getRating, h]
    · simp [SessionStore.getRating, h]
    · simp [SessionStore.getRating, h, hr]
  · intro st entries movieId hst
    refine ⟨fun h => ?_, fun h => ?_, fun r h hr => ?_⟩
    · simp [DurableStore.getMovieRating, hst, h]
    · simp [DurableStore.getMovieRating, hst, h]
    · simp [DurableStore.getMovieRating, hst, h, hr]

/-- A session state whose ratings map holds a genuine rating for 680 and
the falsy sentinel `0` for 13. -/
def c6Session : SessionStore.State := ⟨[], [], [], [(680, 7), (13, 0)]⟩

/-- A durable state whose RATINGS key deserializes to the same map. -/
def c6Durable : DurableStore.State :=
  ⟨.missing, .missing, .val (.rmap [(680, 7), (13, 0)]), .missing⟩

/-- C6, witness: the theorem applied at the concrete ratings map — an
unmapped id and a zero-rated id are absent, the rating 7 of movie 680 is
returned. -/
theorem claim_c6_witness :
    SessionStore.getRating c6Session 680 = some 7 ∧
    SessionStore.getRating c6Session 13 = none ∧
    SessionStore.getRating c6Session 999 = none ∧
    DurableStore.getMovieRating c6Durable 680 = .num 7 ∧
    DurableStore.getMovieRating c6Durable 13 = .absent :=
  ⟨((claim_c6_rating_zero_sentinel.1 c6Session 680).2.2 7 rfl (by decide)),
   ((claim_c6_rating_zero_sentinel.1 c6Session 13).2.1 rfl),
   ((claim_c6_rating_zero_sentinel.1 c6Session 999).1 rfl),
   ((claim_c6_rating_zero_sentinel.2 c6Durable [(680, 7), (13, 0)] 680 rfl).2.2 7 rfl
     (by decide)),
   ((claim_c6_rating_zero_sentinel.2 c6Durable [(680, 7), (13, 0)] 13 rfl).2.1 rfl)⟩

/-! ### Claim C7 -/

/-- C7: every durable read (`getFavorites`, `getWatchlist`, `getRatings`,
`getSyncStatus`) on a missing storage key, or on a key holding malformed
(undeserializable) data, returns the type's empty default.  (Each reader
wraps its body in `try`/`catch` and returns the default from the handler,
so it is modelled as a total function — no error ever reaches the
caller.) -/
theorem claim_c7_read_defaults :
    ∀ st : DurableStore.State,
      (st.favorites = .missing ∨ st.favorites = .malformed →
        DurableStore.getFavorites st = []) ∧
      (st.watchlist = .missing ∨ st.watchlist = .malformed →
        DurableStore.getWatchlist st = []) ∧
      (st.ratings = .missing ∨ st.ratings = .malformed →
        DurableStore.getRatings st = .rmap []) ∧
      (st.syncStatus = .missing ∨ st.syncStatus = .malformed →
        DurableStore.getSyncStatus st = ⟨none, false⟩) := by
  intro st
  refine ⟨fun h => ?_, fun h => ?_, fun h => ?_, fun h => ?_⟩ <;>
    rcases h with h | h <;>
      simp [DurableStore.getFavorites, DurableStore.getWatchlist,
        DurableStore.getRatings, DurableStore.getSyncStatus, h]

/-- A durable state with every key missing. -/
def c7MissingStore : DurableStore.State := ⟨.missing, .missing, .missing, .missing⟩

/-- A durable state with every key holding undeserializable data. -/
def c7MalformedStore : DurableStore.State :=
  ⟨.malformed, .malformed, .malformed, .malformed⟩

/-- C7, witness: the theorem applied at the all-missing and the
all-malformed stores. -/
theorem claim_c7_witness :
    DurableStore.getFavorites c7MissingStore = [] ∧
    DurableStore.getWatchlist c7MissingStore = [] ∧
    DurableStore.getRatings c7MissingStore = .rmap [] ∧
    DurableStore.getSyncStatus c7MissingStore = ⟨none, false⟩ ∧
    DurableStore.getFavorites c7MalformedStore = [] ∧
    DurableStore.getSyncStatus c7MalformedStore = ⟨none, false⟩ :=
  ⟨(claim_c7_read_defaults c7MissingStore).1 (Or.inl rfl),
   (claim_c7_read_defaults c7MissingStore).2.1 (Or.inl rfl),
   (claim_c7_read_defaults c7MissingStore).2.2.1 (Or.inl rfl),
   (claim_c7_read_defaults c7MissingStore).2.2.2 (Or.inl rfl),
   (claim_c7_read_defaults c7MalformedStore).1 (Or.inr rfl),
   (claim_c7_read_defaults c7MalformedStore).2.2.2 (Or.inr rfl)⟩

/-! ### Claim C8 -/

/-- C8: after `clearAllData`, from any prior state, all list reads are empty
and the rating lookup is absent for every id — in the session variant
(favorites, watchlist, watched, ratings) and in the durable variant
(favorites, watchlist, ratings; it has no watched set). -/
theorem claim_c8_clear_all_completeness :
    (∀ s : SessionStore.State,
        SessionStore.getFavorites (SessionStore.clearAllData s) = [] ∧
        SessionStore.getWatchlist (SessionStore.clearAllData s) = [] ∧
        SessionStore.getWatched (SessionStore.clearAllData s) = [] ∧
        ∀ movieId : Nat,
          SessionStore.getRating (SessionStore.clearAllData s) movieId = none) ∧
    (∀ st : DurableStore.State,
        DurableStore.getFavorites (DurableStore.clearAllData st).1 = [] ∧
        DurableStore.getWatchlist (DurableStore.clearAllData st).1 = [] ∧
        ∀ movieId : Nat,
          DurableStore.getMovieRating (DurableStore.clearAllData st).1 movieId =
            .absent) :=
  ⟨fun _s => ⟨rfl, rfl, rfl, fun _movieId => rfl⟩,
   fun _st => ⟨rfl, rfl, fun _movieId => rfl⟩⟩

/-! ### Claim C9 -/

/-- C9, counterexample: the empty string is a non-null path, yet
`getImageUrl` returns the placeholder for it (the `if (!path)` guard treats
the empty string as falsy), not the base-URL-plus-size-plus-path string the
claim prescribes for every non-null path. -/
theorem claim_c9_counterexample :
    MovieService.getImageUrl (some "") .w500 = MovieService.PLACEHOLDER_IMAGE_URL ∧
    MovieService.PLACEHOLDER_IMAGE_URL ≠
      MovieService.TMDB_IMAGE_BASE_URL ++ "/" ++ MovieService.sizeToken .w500 ++ "" :=
  ⟨rfl, by decide⟩

/-- C9 (amended): a null path yields the fixed placeholder URL, and every
non-null, NON-EMPTY path combined with any size token yields the configured
image base URL, a slash, the size token, and the relative path. -/
theorem claim_c9_image_url :
    (∀ size : MovieService.ImageSize,
        MovieService.getImageUrl none size = MovieService.PLACEHOLDER_IMAGE_URL) ∧
    (∀ (p : String) (size : MovieService.ImageSize), p ≠ "" →
        MovieService.getImageUrl (some p) size =
          MovieService.TMDB_IMAGE_BASE_URL ++ "/" ++ MovieService.sizeToken size ++ p) := by
  refine ⟨fun size => rfl, fun p size h => ?_⟩
  simp [MovieService.getImageUrl, h]

/-- C9, witness: the amended theorem applied at a concrete poster path and
each size token. -/
theorem claim_c9_witness :
    MovieService.getImageUrl none .w500 = MovieService.PLACEHOLDER_IMAGE_URL ∧
    MovieService.getImageUrl (some "/q6y0Go1tsGEsmtFryDOJo3dEmqu.jpg") .w500 =
      MovieService.TMDB_IMAGE_BASE_URL ++ "/" ++ MovieService.sizeToken .w500 ++
        "/q6y0Go1tsGEsmtFryDOJo3dEmqu.jpg" ∧
    MovieService.getImageUrl (some "/q6y0Go1tsGEsmtFryDOJo3dEmqu.jpg") .original =
      MovieService.TMDB_IMAGE_BASE_URL ++ "/" ++ MovieService.sizeToken .original ++
        "/q6y0Go1tsGEsmtFryDOJo3dEmqu.jpg" :=
  ⟨claim_c9_image_url.1 .w500,
   claim_c9_image_url.2 "/q6y0Go1tsGEsmtFryDOJo3dEmqu.jpg" .w500 (by decide),
   claim_c9_image_url.2 "/q6y0Go1tsGEsmtFryDOJo3dEmqu.jpg" .original (by decide)⟩

/-! ### Claim C10 -/

/-- C10: in the durable variant, `remove` rewrites the stored set and issues
the fire-and-forget remote mirror call unconditionally — also when the id
is not a member and the stored list is unchanged — while `add` is
asymmetric: when the id is already present it performs no storage write and
no remote call at all. -/
theorem claim_c10_remove_unconditional :
    (∀ (st : DurableStore.State) (movieId : Nat),
        DurableStore.isFavorite st movieId = false →
        DurableStore.getFavorites (DurableStore.removeFromFavorites st movieId).1 =
          DurableStore.getFavorites st ∧
        (DurableStore.removeFromFavorites st movieId).2 =
          [.setItem .favoritesKey, .remoteSetFavorite movieId false]) ∧
    (∀ (st : DurableStore.State) (m : Movie),
        DurableStore.isFavorite st m.id = true →
        DurableStore.addToFavorites st m = (st, [])) ∧
    (∀ (st : DurableStore.State) (movieId : Nat),
        DurableStore.isInWatchlist st movieId = false →
        DurableStore.getWatchlist (DurableStore.removeFromWatchlist st movieId).1 =
          DurableStore.getWatchlist st ∧
        (DurableStore.removeFromWatchlist st movieId).2 =
          [.setItem .watchlistKey, .remoteSetWatchlist movieId false]) ∧
    (∀ (st : DurableStore.State) (m : Movie),
        DurableStore.isInWatchlist st m.id = true →
        DurableStore.addToWatchlist st m = (st, [])) := by
  refine ⟨?_, ?_, ?_, ?_⟩
  · intro st movieId h
    have hany : (DurableStore.getFavorites st).any
        (fun movie => movie.id == movieId) = false := h
    refine ⟨?_, rfl⟩
    have e : DurableStore.getFavorites (DurableStore.removeFromFavorites st movieId).1 =
        (DurableStore.getFavorites st).filter (fun movie => movie.id != movieId) := rfl
    rw [e]
    exact filter_key_of_not_any Movie.id movieId _ hany
  · intro st m h
    have h2 : (DurableStore.getFavorites st).any (fun fav => fav.id == m.id) = true := h
    simp [DurableStore.addToFavorites, h2]
  · intro st movieId h
    have hany : (DurableStore.getWatchlist st).any
        (fun movie => movie.id == movieId) = false := h
    refine ⟨?_, rfl⟩
    have e : DurableStore.getWatchlist (DurableStore.removeFromWatchlist st movieId).1 =
        (DurableStore.getWatchlist st).filter (fun movie => movie.id != movieId) := rfl
    rw [e]
    exact filter_key_of_not_any Movie.id movieId _ hany
  · intro st m h
    have h2 : (DurableStore.getWatchlist st).any (fun item => item.id == m.id) = true := h
    simp [DurableStore.addToWatchlist, h2]

/-- A durable state holding movie 278 in both sets. -/
def c10Store : DurableStore.State :=
  ⟨.val [⟨278, "The Shawshank Redemption"⟩], .val [⟨278, "The Shawshank Redemption"⟩],
   .val (.rmap []), .missing⟩

/-- C10, witness: the theorem applied at the concrete state — removing the
absent id 999 changes nothing locally yet issues the storage write and the
remote mirror call, and re-adding the present movie 278 issues nothing. -/
theorem claim_c10_witness :
    (DurableStore.getFavorites (DurableStore.removeFromFavorites c10Store 999).1 =
        DurableStore.getFavorites c10Store ∧
      (DurableStore.removeFromFavorites c10Store 999).2 =
        [.setItem .favoritesKey, .remoteSetFavorite 999 false]) ∧
    DurableStore.addToFavorites c10Store ⟨278, "The Shawshank Redemption"⟩ =
      (c10Store, []) ∧
    DurableStore.addToWatchlist c10Store ⟨278, "The Shawshank Redemption"⟩ =
      (c10Store, []) :=
  ⟨claim_c10_remove_unconditional.1 c10Store 999 rfl,
   claim_c10_remove_unconditional.2.1 c10Store ⟨278, "The Shawshank Redemption"⟩ rfl,
   claim_c10_remove_unconditional.2.2.2 c10Store ⟨278, "The Shawshank Redemption"⟩ rfl⟩

end Movieverse
